import Mathlib

/-!
Verification of the NIR spectrum-model training pipeline
(`spectrum_model.py`, DNN and SVR variants).

The Python code is shallowly embedded: numpy arrays become functions
`Fin n → Fin m → ℝ`, the preprocessing formulas become Lean functions over
ℝ, library fits (sklearn PLS / PCA) whose internals are iterative numeric
algorithms are abstracted as parameters together with, where a claim needs
it, a predicate capturing the documented algebraic facts of the fit
(e.g. PCA's SVD decomposition).  Floating-point arithmetic is modelled by
exact real arithmetic.
-/

namespace NIR

/-! ### Generic index sorting (`np.argsort` / `np.sort` over a score vector)

`select_features_vip` only uses the order structure of the VIP score
vector, so the index-sorting part is stated over an arbitrary linear
order; the pipeline instantiates it at ℝ. -/

/-- `np.argsort(v)`: the indices `0..p-1` sorted ascending by score. -/
def argsortAsc (p : ℕ) {α : Type} [LinearOrder α] (v : Fin p → α) :
    List (Fin p) :=
  List.insertionSort (fun i j => v i ≤ v j) (List.finRange p)

/-- `np.sort(np.argsort(v)[::-1][:min(tk, p)])`: reverse to descending
order, take the clamped top-k, re-sort the chosen indices ascending
(source lines 234-237). -/
def topkSelect (p : ℕ) {α : Type} [LinearOrder α] (v : Fin p → α)
    (tk : ℕ) : List (Fin p) :=
  List.insertionSort (· ≤ ·) ((argsortAsc p v).reverse.take (min tk p))

noncomputable section

/-- The epsilon guard `1e-8` used by `apply_snv`. -/
def eps8 : ℝ := 1 / 10 ^ 8

/-- The epsilon guard `1e-12` used by `compute_vip_scores`. -/
def eps12 : ℝ := 1 / 10 ^ 12

/-! ### SNV row normalization (`apply_snv`, spectrum_model.py lines 111-138) -/

/-- `np.mean(sample)` for a row of length `m`. -/
def rowMean (m : ℕ) (x : Fin m → ℝ) : ℝ := (∑ j, x j) / m

/-- `np.std(sample)`: numpy's default population standard deviation
(`ddof = 0`). -/
noncomputable def rowStd (m : ℕ) (x : Fin m → ℝ) : ℝ :=
  Real.sqrt ((∑ j, (x j - rowMean m x) ^ 2) / m)

/-- The per-row SNV body: `(sample - mean) / std` when `std > 1e-8`,
otherwise `sample - mean` (source lines 126-135). -/
noncomputable def snvRow (m : ℕ) (x : Fin m → ℝ) : Fin m → ℝ :=
  fun j =>
    if rowStd m x > eps8 then (x j - rowMean m x) / rowStd m x
    else x j - rowMean m x

/-- `apply_snv`: the loop over samples applies `snvRow` to every row
independently (source lines 125-135); this is its pure row-wise result. -/
noncomputable def apply_snv (n m : ℕ) (X : Fin n → Fin m → ℝ) :
    Fin n → Fin m → ℝ :=
  fun i => snvRow m (X i)

/-! ### Imperative model of the `apply_snv` loop (for the frame property)

The Python body allocates `snv_spectra = np.zeros_like(spectra)` and then,
for each row index `i`, reads `spectra[i, :]` and writes row `i` of
`snv_spectra`.  We model the pair of arrays `(spectra, snv_spectra)` as the
loop state; one iteration reads only from the first component and updates
one row of the second. -/

/-- One iteration of the `for i in range(spectra.shape[0])` loop. -/
noncomputable def snvStep (n m : ℕ)
    (st : (Fin n → Fin m → ℝ) × (Fin n → Fin m → ℝ)) (i : Fin n) :
    (Fin n → Fin m → ℝ) × (Fin n → Fin m → ℝ) :=
  (st.1, Function.update st.2 i (snvRow m (st.1 i)))

/-- Running the whole `apply_snv` body: start from the input array and a
freshly allocated zero array, then fold the loop over all row indices.
The result is the final `(spectra, snv_spectra)` pair. -/
noncomputable def apply_snv_run (n m : ℕ) (X : Fin n → Fin m → ℝ) :
    (Fin n → Fin m → ℝ) × (Fin n → Fin m → ℝ) :=
  (List.finRange n).foldl (snvStep n m) (X, fun _ _ => 0)

/-! ### Target scaling (`apply_property_scaling`, lines 140-154)

`sklearn.preprocessing.StandardScaler`: `mean_` is the per-column mean,
`scale_` is the per-column population standard deviation with exact zeros
replaced by 1 (`_handle_zeros_in_scale`), `transform` is
`(Y - mean_) / scale_` and `inverse_transform` is `Y * scale_ + mean_`. -/

/-- `StandardScaler.mean_` for an `n × t` target matrix. -/
def scalerMean (n t : ℕ) (Y : Fin n → Fin t → ℝ) : Fin t → ℝ :=
  fun j => (∑ i, Y i j) / n

/-- `StandardScaler.scale_`: the column's population standard deviation,
with a zero standard deviation replaced by 1. -/
noncomputable def scalerScale (n t : ℕ) (Y : Fin n → Fin t → ℝ) : Fin t → ℝ :=
  fun j =>
    let s := Real.sqrt ((∑ i, (Y i j - scalerMean n t Y j) ^ 2) / n)
    if s = 0 then 1 else s

/-- `StandardScaler.fit_transform`, as called by `apply_property_scaling`. -/
noncomputable def scalerTransform (n t : ℕ) (Y : Fin n → Fin t → ℝ) :
    Fin n → Fin t → ℝ :=
  fun i j => (Y i j - scalerMean n t Y j) / scalerScale n t Y j

/-- `StandardScaler.inverse_transform` with the parameters fitted on `Y`,
as used in `evaluate_model` (lines 383-386): `Z * scale_ + mean_`. -/
noncomputable def scalerInverse (n t : ℕ) (Y : Fin n → Fin t → ℝ)
    (Z : Fin n → Fin t → ℝ) : Fin n → Fin t → ℝ :=
  fun i j => Z i j * scalerScale n t Y j + scalerMean n t Y j

/-! ### VIP scores (`compute_vip_scores`, lines 201-228)

`PLSRegression(n_components=k).fit(X, Y)` is an iterative library
algorithm; it is abstracted as a function `plsLib` producing the three
arrays the source reads back (`x_scores_`, `x_weights_`, `y_loadings_`).
Everything the source computes from them is embedded exactly. -/

/-- The arrays read from a fitted `PLSRegression` with `k` components:
`T = x_scores_ (n × k)`, `W = x_weights_ (p × k)`, `Q = y_loadings_
(t × k)`. -/
structure PLSFit (n p t k : ℕ) where
  T : Fin n → Fin k → ℝ
  W : Fin p → Fin k → ℝ
  Q : Fin t → Fin k → ℝ

/-- The component clamp of line 211:
`n_components = max(1, min(n_components, min(X.shape[0]-1, X.shape[1])))`.
(For `n = 0` Python computes `max(1, -1) = 1` and ℕ-subtraction gives
`max 1 0 = 1`, so truncated subtraction agrees everywhere.) -/
def plsClamp (nc n p : ℕ) : ℕ := max 1 (min nc (min (n - 1) p))

/-- `np.linalg.norm(W, axis=0)` at column `c`: the column's L2 norm. -/
def colNorm (p k : ℕ) (W : Fin p → Fin k → ℝ) (c : Fin k) : ℝ :=
  Real.sqrt (∑ j, W j c ^ 2)

/-- `compute_vip_scores` (lines 211-228): clamp the component count, fit
PLS, form `ssy_c = sum(T[:,c]^2) * sum(Q[:,c]^2)`, normalize it by
`sum(ssy) + 1e-12`, normalize each weight column by its L2 norm plus
`1e-12`, and return `sqrt(p * sum_c(W_norm^2 * ssy))` per feature. -/
def compute_vip_scores (n p t : ℕ)
    (plsLib : (k : ℕ) → (Fin n → Fin p → ℝ) → (Fin n → Fin t → ℝ) →
      PLSFit n p t k)
    (X : Fin n → Fin p → ℝ) (Y : Fin n → Fin t → ℝ) (nc : ℕ) :
    Fin p → ℝ :=
  let k := plsClamp nc n p
  let f := plsLib k X Y
  let ssy : Fin k → ℝ := fun c => (∑ i, f.T i c ^ 2) * (∑ a, f.Q a c ^ 2)
  let ssyTotal : ℝ := ∑ c, ssy c
  fun j => Real.sqrt (p * ∑ c,
    (f.W j c / (colNorm p k f.W c + eps12)) ^ 2 * (ssy c / (ssyTotal + eps12)))

/-- The VIP algorithm as worded by the spec (§4.2 steps 3-5), written from
the spec's sentences over the same fitted-PLS arrays, for comparison with
the source-derived `compute_vip_scores`. -/
def vipSpecFormula (n p t k : ℕ) (f : PLSFit n p t k) : Fin p → ℝ :=
  let ssy : Fin k → ℝ := fun c => (∑ i, f.T i c ^ 2) * (∑ a, f.Q a c ^ 2)
  let ssyNorm : Fin k → ℝ := fun c => ssy c / ((∑ d, ssy d) + eps12)
  let wNorm : Fin p → Fin k → ℝ :=
    fun j c => f.W j c / (colNorm p k f.W c + eps12)
  fun j => Real.sqrt (p * ∑ c, wNorm j c ^ 2 * ssyNorm c)

open Classical in
/-- `compute_vip_scores` with every division check made explicit: it
fails (returns `none`, modelling a raised division error) when either
epsilon-guarded denominator is zero, and otherwise returns the same
scores. -/
def compute_vip_scores_checked (n p t : ℕ)
    (plsLib : (k : ℕ) → (Fin n → Fin p → ℝ) → (Fin n → Fin t → ℝ) →
      PLSFit n p t k)
    (X : Fin n → Fin p → ℝ) (Y : Fin n → Fin t → ℝ) (nc : ℕ) :
    Option (Fin p → ℝ) :=
  let k := plsClamp nc n p
  let f := plsLib k X Y
  let ssy : Fin k → ℝ := fun c => (∑ i, f.T i c ^ 2) * (∑ a, f.Q a c ^ 2)
  let ssyTotal : ℝ := ∑ c, ssy c
  if ssyTotal + eps12 = 0 ∨ ∃ c, colNorm p k f.W c + eps12 = 0 then none
  else some (fun j => Real.sqrt (p * ∑ c,
    (f.W j c / (colNorm p k f.W c + eps12)) ^ 2 * (ssy c / (ssyTotal + eps12))))

/-! ### VIP feature selection (`select_features_vip`, lines 230-238) -/

/-- `select_features_vip`: clamp `top_k` to the feature count, compute the
VIP scores, take the `top_k` highest-scoring indices, return them sorted
ascending. -/
def select_features_vip (n p t : ℕ)
    (plsLib : (k : ℕ) → (Fin n → Fin p → ℝ) → (Fin n → Fin t → ℝ) →
      PLSFit n p t k)
    (X : Fin n → Fin p → ℝ) (Y : Fin n → Fin t → ℝ)
    (topK nc : ℕ) : List (Fin p) :=
  topkSelect p (compute_vip_scores n p t plsLib X Y nc) topK

/-- `select_features_vip` on top of the division-checked score
computation. -/
def select_features_vip_checked (n p t : ℕ)
    (plsLib : (k : ℕ) → (Fin n → Fin p → ℝ) → (Fin n → Fin t → ℝ) →
      PLSFit n p t k)
    (X : Fin n → Fin p → ℝ) (Y : Fin n → Fin t → ℝ)
    (topK nc : ℕ) : Option (List (Fin p)) :=
  (compute_vip_scores_checked n p t plsLib X Y nc).map
    (fun v => topkSelect p v topK)

/-! ### PCA (`PCA(n_components=...)`, `fit_transform`, lines 535-538)

sklearn's PCA is SVD-based: `fit` centers the data by the column mean and
takes a singular value decomposition `X_c = U Σ Vᵀ`; `components_` is the
first `k` rows of `Vᵀ`, and `fit_transform` returns the scores
`U_k Σ_k`.  `IsPCAFit` records exactly these documented facts about a
fitted model. -/

/-- The arrays read from a fitted `sklearn.decomposition.PCA`: `mean_`
(width `w`), `components_ (k × w)` and the `fit_transform` output
(`n × k`). -/
structure PCAModel (n w k : ℕ) where
  mean : Fin w → ℝ
  components : Fin k → Fin w → ℝ
  scores : Fin n → Fin k → ℝ

/-- `M` is a PCA fit of `X` through an SVD of rank bound `r`: the centered
data factors as `U Σ Vᵀ` with orthonormal `V` columns, `mean_` is the
column mean, `components_` is the first `k` columns of `V` transposed, and
the `fit_transform` scores are `U_k Σ_k`. -/
def IsPCAFit (n w k r : ℕ) (X : Fin n → Fin w → ℝ) (M : PCAModel n w k) :
    Prop :=
  ∃ (U : Fin n → Fin r → ℝ) (S : Fin r → ℝ) (V : Fin w → Fin r → ℝ)
    (hk : k ≤ r),
    (∀ d c, ∑ j, V j d * V j c = if d = c then (1 : ℝ) else 0) ∧
    (∀ j, M.mean j = (∑ i, X i j) / n) ∧
    (∀ i j, X i j - M.mean j = ∑ c, U i c * S c * V j c) ∧
    (∀ c j, M.components c j = V j (Fin.castLE hk c)) ∧
    (∀ i c, M.scores i c = U i (Fin.castLE hk c) * S (Fin.castLE hk c))

/-- The exported replay transform `(x - pca_mean) @ components^T`
(preprocessing_params.json consumer contract, source lines 187-194). -/
def pcaTransform (w k : ℕ) (mean : Fin w → ℝ)
    (components : Fin k → Fin w → ℝ) (x : Fin w → ℝ) : Fin k → ℝ :=
  fun c => ∑ j, (x j - mean j) * components c j

/-! ### Exported artifacts (`save_preprocessing_params` lines 156-199,
`save_model_info` lines 486-501, `main` lines 503-586) -/

/-- Column-wise `np.mean(snv_spectra, axis=0)`. -/
def colMean (n m : ℕ) (X : Fin n → Fin m → ℝ) : Fin m → ℝ :=
  fun j => (∑ i, X i j) / n

/-- Column-wise `np.std(snv_spectra, axis=0)` (population). -/
def colStd (n m : ℕ) (X : Fin n → Fin m → ℝ) : Fin m → ℝ :=
  fun j => Real.sqrt ((∑ i, (X i j - colMean n m X j) ^ 2) / n)

/-- The serialized `pca` block of `preprocessing_params.json`. -/
structure PcaJson where
  mean : List ℝ
  components : List (List ℝ)
  n_components : ℕ

/-- `preprocessing_params.json` as a record. -/
structure PreprocessingParams where
  spectrum_stats_mean : List ℝ
  spectrum_stats_std : List ℝ
  property_scaler_mean : List ℝ
  property_scaler_scale : List ℝ
  preprocessing_type : String
  pca : Option PcaJson

/-- `model_info.json` as a record. -/
structure ModelInfo where
  input_size : ℕ
  output_size : ℕ
  property_labels : List String
  wavelength_labels : List String
  selected_feature_indices : List ℕ

/-- Serialization of a fitted PCA (lines 190-194): `mean_.tolist()`,
`components_.tolist()`, `int(n_components_)`. -/
def pcaToJson (n w k : ℕ) (M : PCAModel n w k) : PcaJson :=
  { mean := (List.finRange w).map M.mean
    components := (List.finRange k).map fun c => (List.finRange w).map (M.components c)
    n_components := k }

/-- `save_preprocessing_params` (lines 156-199): column stats of the SNV
spectra, the property scaler's `mean_`/`scale_` (fitted on `Y`), the
literal `preprocessing_type`, and the PCA block when a PCA was passed. -/
def save_preprocessing_params (n p t : ℕ) (snv : Fin n → Fin p → ℝ)
    (Y : Fin n → Fin t → ℝ)
    (pcaM : Option ((w : ℕ) × (k : ℕ) × PCAModel n w k)) :
    PreprocessingParams :=
  { spectrum_stats_mean := (List.finRange p).map (colMean n p snv)
    spectrum_stats_std := (List.finRange p).map (colStd n p snv)
    property_scaler_mean := (List.finRange t).map (scalerMean n t Y)
    property_scaler_scale := (List.finRange t).map (scalerScale n t Y)
    preprocessing_type := "SNV"
    pca := pcaM.map fun q => pcaToJson n q.1 q.2.1 q.2.2 }

/-- `save_model_info` (lines 486-501): the record written to
`model_info.json`. -/
def save_model_info (inputSize outputSize : ℕ)
    (propertyLabels wavelengthLabels : List String)
    (selectedIdx : List ℕ) : ModelInfo :=
  { input_size := inputSize
    output_size := outputSize
    property_labels := propertyLabels
    wavelength_labels := wavelengthLabels
    selected_feature_indices := selectedIdx }

/-- `top_k = min(100, snv_spectra.shape[1])` (line 528). -/
def topKRequested (p : ℕ) : ℕ := min 100 p

/-- `pca_components = min(32, snv_feat.shape[1])` (line 536): the count
handed to `PCA(n_components=...)`.  Note it is clamped by the subset
width only, not by the sample count. -/
def pcaComponentsPassed (w : ℕ) : ℕ := min 32 w

/-- The export-relevant dataflow of `main` (lines 519-574): SNV, target
scaling, VIP selection, column gather, PCA fit on the gathered subset,
then the two artifact documents.  The two library fits are parameters
(`plsLib`, `pcaLib`) standing for `PLSRegression(...).fit` and
`PCA(...).fit_transform`. -/
def main_export (n p t : ℕ)
    (plsLib : (k : ℕ) → (Fin n → Fin p → ℝ) → (Fin n → Fin t → ℝ) →
      PLSFit n p t k)
    (pcaLib : (w k : ℕ) → (Fin n → Fin w → ℝ) → PCAModel n w k)
    (X : Fin n → Fin p → ℝ) (Y : Fin n → Fin t → ℝ)
    (wavelengthLabels propertyLabels : List String) :
    PreprocessingParams × ModelInfo :=
  let snv := apply_snv n p X
  let scaledY := scalerTransform n t Y
  let sel := select_features_vip n p t plsLib snv scaledY (topKRequested p) 10
  let w := sel.length
  let snvFeat : Fin n → Fin w → ℝ := fun i c => snv i (sel.get c)
  let k := pcaComponentsPassed w
  let pcaM := pcaLib w k snvFeat
  let pp := save_preprocessing_params n p t snv Y (some ⟨w, k, pcaM⟩)
  let mi := save_model_info k t propertyLabels wavelengthLabels
    (sel.map Fin.val)
  (pp, mi)

end

/-! ## Theorems -/

/-- Row `i` of the SNV output depends only on row `i` of the input. -/
theorem snvRow_congr (n m : ℕ) (X X' : Fin n → Fin m → ℝ) (i : Fin n)
    (h : ∀ j, X i j = X' i j) :
    apply_snv n m X i = apply_snv n m X' i := by
  have hX : X i = X' i := funext h
  unfold apply_snv
  rw [hX]

/-- Claim C5: `apply_snv` outputs, for every entry, `(x - μ) / σ` when the
row's population standard deviation `σ` exceeds `1e-8` and `x - μ`
otherwise, where `μ` and `σ` are the mean and population standard
deviation of that row alone; and the result for a row uses only that
row's own values. -/
theorem apply_snv_spec :
    (∀ n m (X : Fin n → Fin m → ℝ) (i : Fin n) (j : Fin m),
      apply_snv n m X i j =
        if Real.sqrt ((∑ j', (X i j' - (∑ j'', X i j'') / m) ^ 2) / m) > eps8
        then (X i j - (∑ j'', X i j'') / m) /
          Real.sqrt ((∑ j', (X i j' - (∑ j'', X i j'') / m) ^ 2) / m)
        else X i j - (∑ j'', X i j'') / m) ∧
    (∀ n m (X X' : Fin n → Fin m → ℝ) (i : Fin n),
      (∀ j, X i j = X' i j) → apply_snv n m X i = apply_snv n m X' i) := by
  constructor
  · intro n m X i j
    rfl
  · exact snvRow_congr

/-- Witness for C5 at a concrete input: two matrices that agree on row 0
produce the same normalized row 0. -/
theorem apply_snv_spec_witness :
    (∀ j, (fun i _ : Fin 1 => (![(1 : ℝ), 5] : Fin 2 → ℝ) i) 0 j =
      (fun i _ : Fin 1 => (![(1 : ℝ), 3] : Fin 2 → ℝ) i) 0 j) ∧
    apply_snv 2 1 (fun i _ => ![(1 : ℝ), 5] i) 0 =
      apply_snv 2 1 (fun i _ => ![(1 : ℝ), 3] i) 0 := by
  have h : ∀ j, (fun i _ : Fin 1 => (![(1 : ℝ), 5] : Fin 2 → ℝ) i) 0 j =
      (fun i _ : Fin 1 => (![(1 : ℝ), 3] : Fin 2 → ℝ) i) 0 j := by
    intro j
    norm_num
  exact ⟨h, apply_snv_spec.2 2 1 _ _ 0 h⟩

/-- Claim C8: The fitted target scaler is an exact round trip on the data it
was fitted on: `inverse(transform(Y)) = Y` entrywise (the zero-variance
guard makes every scale entry nonzero). -/
theorem scaler_roundtrip :
    ∀ (n t : ℕ) (Y : Fin n → Fin t → ℝ) (i : Fin n) (j : Fin t),
      scalerInverse n t Y (scalerTransform n t Y) i j = Y i j := by
  intro n t Y i j
  have hs : scalerScale n t Y j ≠ 0 := by
    unfold scalerScale
    dsimp only
    split
    · exact one_ne_zero
    · next h => exact h
  unfold scalerInverse scalerTransform
  rw [div_mul_cancel₀ _ hs]
  ring

/-- Claim C6: `compute_vip_scores` follows the spec's algorithm: the PLS
component count is clamped to `max(1, min(requested, n_samples - 1,
n_features))`, and the scores over the fitted arrays equal the spec's
formula (normalized `ssy` with the `1e-12` guard, unit-norm weight
columns with the `1e-12` guard, `sqrt(p * Σ W_norm² · ssy)`). -/
theorem compute_vip_scores_follows_spec :
    ∀ (n p t : ℕ)
      (plsLib : (k : ℕ) → (Fin n → Fin p → ℝ) → (Fin n → Fin t → ℝ) →
        PLSFit n p t k)
      (X : Fin n → Fin p → ℝ) (Y : Fin n → Fin t → ℝ) (nc : ℕ),
      plsClamp nc n p = max 1 (min nc (min (n - 1) p)) ∧
      compute_vip_scores n p t plsLib X Y nc =
        vipSpecFormula n p t (plsClamp nc n p) (plsLib (plsClamp nc n p) X Y) := by
  intro n p t plsLib X Y nc
  exact ⟨rfl, rfl⟩

/-- The SNV loop never writes to the input array: the first state
component is invariant under the fold. -/
theorem snvFoldl_fst (n m : ℕ) (l : List (Fin n))
    (st : (Fin n → Fin m → ℝ) × (Fin n → Fin m → ℝ)) :
    (l.foldl (snvStep n m) st).1 = st.1 := by
  induction l generalizing st with
  | nil => rfl
  | cons a l ih =>
    rw [List.foldl_cons, ih]
    rfl

/-- After folding the SNV loop over indices `l`, an output row is the SNV
of the corresponding input row if its index was visited, and untouched
otherwise. -/
theorem snvFoldl_snd (n m : ℕ) (l : List (Fin n))
    (X A : Fin n → Fin m → ℝ) (i : Fin n) :
    (l.foldl (snvStep n m) (X, A)).2 i =
      if i ∈ l then snvRow m (X i) else A i := by
  induction l generalizing A with
  | nil => simp
  | cons a l ih =>
    rw [List.foldl_cons]
    show (l.foldl (snvStep n m)
      (X, Function.update A a (snvRow m (X a)))).2 i = _
    rw [ih]
    by_cases hil : i ∈ l
    · simp [hil]
    · by_cases hia : i = a
      · subst hia
        simp [hil]
      · simp [hil, hia, Function.update_apply]

/-- Claim C10: The imperative `apply_snv` body leaves the caller's input
array element-for-element unchanged and produces the row-wise SNV result
in the freshly allocated output array of the same shape. -/
theorem apply_snv_no_mutation :
    ∀ (n m : ℕ) (X : Fin n → Fin m → ℝ),
      (apply_snv_run n m X).1 = X ∧
      (apply_snv_run n m X).2 = apply_snv n m X := by
  intro n m X
  constructor
  · exact snvFoldl_fst n m _ _
  · funext i
    unfold apply_snv_run
    rw [snvFoldl_snd]
    simp [apply_snv]

/-- The two guarded denominators of `compute_vip_scores` are strictly
positive: a sum of products of sums of squares plus `1e-12`, and an L2
norm plus `1e-12`. -/
theorem vip_denominators_pos (n p t k : ℕ) (f : PLSFit n p t k) :
    (0 < (∑ c, (∑ i, f.T i c ^ 2) * (∑ a, f.Q a c ^ 2)) + eps12) ∧
    (∀ c, 0 < colNorm p k f.W c + eps12) := by
  have he : (0 : ℝ) < eps12 := by
    unfold eps12
    norm_num
  constructor
  · have hsum : (0 : ℝ) ≤ ∑ c, (∑ i, f.T i c ^ 2) * (∑ a, f.Q a c ^ 2) := by
      refine Finset.sum_nonneg fun c _ => ?hc
      exact mul_nonneg (Finset.sum_nonneg fun i _ => sq_nonneg _)
        (Finset.sum_nonneg fun a _ => sq_nonneg _)
    linarith
  · intro c
    have hn : (0 : ℝ) ≤ colNorm p k f.W c := Real.sqrt_nonneg _
    linarith

/-- Claim C7: VIP selection never fails: the division-checked versions of
`compute_vip_scores` and `select_features_vip` always return `some` of
the unchecked result, for every input (the epsilon guards keep every
denominator nonzero). -/
theorem vip_never_fails :
    ∀ (n p t : ℕ)
      (plsLib : (k : ℕ) → (Fin n → Fin p → ℝ) → (Fin n → Fin t → ℝ) →
        PLSFit n p t k)
      (X : Fin n → Fin p → ℝ) (Y : Fin n → Fin t → ℝ) (topK nc : ℕ),
      compute_vip_scores_checked n p t plsLib X Y nc =
        some (compute_vip_scores n p t plsLib X Y nc) ∧
      select_features_vip_checked n p t plsLib X Y topK nc =
        some (select_features_vip n p t plsLib X Y topK nc) := by
  intro n p t plsLib X Y topK nc
  have hmain : compute_vip_scores_checked n p t plsLib X Y nc =
      some (compute_vip_scores n p t plsLib X Y nc) := by
    unfold compute_vip_scores_checked compute_vip_scores
    dsimp only
    rw [if_neg]
    push_neg
    obtain ⟨h1, h2⟩ := vip_denominators_pos n p t
      (plsClamp nc n p) (plsLib (plsClamp nc n p) X Y)
    exact ⟨ne_of_gt h1, fun c => ne_of_gt (h2 c)⟩
  refine ⟨hmain, ?hsel⟩
  unfold select_features_vip_checked select_features_vip
  rw [hmain]
  rfl

/-- `topkSelect` is a permutation of the clamped top-k slice of the
descending argsort, which itself is drawn from `finRange p`; its length
is `min tk p`. -/
theorem topkSelect_length (p : ℕ) {α : Type} [LinearOrder α]
    (v : Fin p → α) (tk : ℕ) :
    (topkSelect p v tk).length = min tk p := by
  unfold topkSelect argsortAsc
  rw [List.length_insertionSort, List.length_take, List.length_reverse,
    List.length_insertionSort, List.length_finRange, min_assoc, min_self]

/-- `topkSelect` has no duplicate indices. -/
theorem topkSelect_nodup (p : ℕ) {α : Type} [LinearOrder α]
    (v : Fin p → α) (tk : ℕ) : (topkSelect p v tk).Nodup := by
  have h1 : (argsortAsc p v).Nodup :=
    (List.perm_insertionSort _ _).nodup_iff.mpr (List.nodup_finRange p)
  have h2 : ((argsortAsc p v).reverse.take (min tk p)).Nodup :=
    (List.nodup_reverse.mpr h1).sublist (List.take_sublist _ _)
  exact (List.perm_insertionSort _ _).nodup_iff.mpr h2

/-- `topkSelect` is sorted strictly ascending. -/
theorem topkSelect_sorted (p : ℕ) {α : Type} [LinearOrder α]
    (v : Fin p → α) (tk : ℕ) :
    (topkSelect p v tk).Sorted (· < ·) := by
  have hle : (topkSelect p v tk).Sorted (· ≤ ·) :=
    List.sorted_insertionSort _ _
  exact hle.lt_of_le (topkSelect_nodup p v tk)

/-- When the requested `tk` covers all features, `topkSelect` returns
every index `0..p-1` in ascending order. -/
theorem topkSelect_all (p : ℕ) {α : Type} [LinearOrder α]
    (v : Fin p → α) (tk : ℕ) (h : p ≤ tk) :
    topkSelect p v tk = List.finRange p := by
  have hperm : List.Perm (topkSelect p v tk) (List.finRange p) := by
    unfold topkSelect
    have hmin : min tk p = p := min_eq_right h
    have hlen : (argsortAsc p v).reverse.length = p := by
      unfold argsortAsc
      rw [List.length_reverse, List.length_insertionSort,
        List.length_finRange]
    have htake : (argsortAsc p v).reverse.take (min tk p) =
        (argsortAsc p v).reverse := by
      rw [hmin]
      exact List.take_of_length_le (le_of_eq hlen)
    rw [htake]
    exact ((List.perm_insertionSort _ _).trans
      (List.reverse_perm _)).trans (List.perm_insertionSort _ _)
  have hs1 : (topkSelect p v tk).Sorted (· ≤ ·) :=
    List.sorted_insertionSort _ _
  have hs2 : (List.finRange p).Sorted (· ≤ ·) := List.pairwise_le_finRange p
  exact List.eq_of_perm_of_sorted hperm hs1 hs2

/-- The selected index list of `select_features_vip` has length
`min topK p`. -/
theorem select_features_vip_length (n p t : ℕ)
    (plsLib : (k : ℕ) → (Fin n → Fin p → ℝ) → (Fin n → Fin t → ℝ) →
      PLSFit n p t k)
    (X : Fin n → Fin p → ℝ) (Y : Fin n → Fin t → ℝ) (topK nc : ℕ) :
    (select_features_vip n p t plsLib X Y topK nc).length = min topK p := by
  unfold select_features_vip
  exact topkSelect_length p _ topK

/-- Claim C4: `select_features_vip` returns an index list of length exactly
`min(top_k, p)`, with no duplicates, all indices below `p`, sorted
strictly ascending whatever the score ranking was; and when `top_k ≥ p`
it returns exactly `[0..p)`. -/
theorem select_features_vip_contract :
    ∀ (n p t : ℕ)
      (plsLib : (k : ℕ) → (Fin n → Fin p → ℝ) → (Fin n → Fin t → ℝ) →
        PLSFit n p t k)
      (X : Fin n → Fin p → ℝ) (Y : Fin n → Fin t → ℝ) (topK nc : ℕ),
      (select_features_vip n p t plsLib X Y topK nc).length = min topK p ∧
      (select_features_vip n p t plsLib X Y topK nc).Nodup ∧
      (select_features_vip n p t plsLib X Y topK nc).Sorted (· < ·) ∧
      (∀ i ∈ select_features_vip n p t plsLib X Y topK nc, (i : ℕ) < p) ∧
      (p ≤ topK →
        select_features_vip n p t plsLib X Y topK nc = List.finRange p) := by
  intro n p t plsLib X Y topK nc
  refine ⟨topkSelect_length p _ topK, topkSelect_nodup p _ topK,
    topkSelect_sorted p _ topK, fun i _ => i.isLt,
    fun h => topkSelect_all p _ topK h⟩

/-- Witness for C4: with 3 features and `top_k = 5 ≥ 3`, the selection is
exactly `[0, 1, 2]`. -/
theorem select_features_vip_contract_witness :
    select_features_vip 1 3 1
      (fun _ _ _ => ⟨fun _ _ => 0, fun _ _ => 0, fun _ _ => 0⟩)
      (fun _ _ => 0) (fun _ _ => 0) 5 10 = List.finRange 3 :=
  (select_features_vip_contract 1 3 1
    (fun _ _ _ => ⟨fun _ _ => 0, fun _ _ => 0, fun _ _ => 0⟩)
    (fun _ _ => 0) (fun _ _ => 0) 5 10).2.2.2.2 (by norm_num)

/-- Claim C1: PCA replay: for a fitted PCA (SVD of the centered training
subset), projecting any training row through the exported
`(x - pca_mean) @ components^T` reproduces the row that `fit_transform`
produced, exactly. -/
theorem pca_replay (n w k r : ℕ) (X : Fin n → Fin w → ℝ)
    (M : PCAModel n w k) (hfit : IsPCAFit n w k r X M) (i : Fin n) :
    pcaTransform w k M.mean M.components (X i) = M.scores i := by
  obtain ⟨U, S, V, hk, hV, hmean, hcenter, hcomp, hscore⟩ := hfit
  funext c
  unfold pcaTransform
  have step1 : ∑ j, (X i j - M.mean j) * M.components c j =
      ∑ j, (∑ d, U i d * S d * V j d) * V j (Fin.castLE hk c) := by
    refine Finset.sum_congr rfl fun j _ => ?hj
    rw [hcenter i j, hcomp c j]
  have step2 : ∑ j, (∑ d, U i d * S d * V j d) * V j (Fin.castLE hk c) =
      ∑ d, (U i d * S d) * ∑ j, V j d * V j (Fin.castLE hk c) := by
    simp_rw [Finset.sum_mul, Finset.mul_sum]
    rw [Finset.sum_comm]
    refine Finset.sum_congr rfl fun d _ => ?hd
    refine Finset.sum_congr rfl fun j _ => ?hdj
    ring
  have step3 : ∑ d, (U i d * S d) * ∑ j, V j d * V j (Fin.castLE hk c) =
      U i (Fin.castLE hk c) * S (Fin.castLE hk c) := by
    simp_rw [hV]
    simp [Finset.sum_ite_eq, Finset.mem_univ]
  rw [step1, step2, step3, hscore i c]

/-- Witness for C1: a concrete 2-sample, 1-feature fit (centered data
`[[-1], [1]]`, singular triple `U = [[-1], [1]]`, `S = [1]`, `V = [[1]]`)
replayed exactly on row 0. -/
theorem pca_replay_witness :
    IsPCAFit 2 1 1 1 (fun i _ => ![(0 : ℝ), 2] i)
      ⟨fun _ => 1, fun _ _ => 1, fun i _ => ![(-1 : ℝ), 1] i⟩ ∧
    pcaTransform 1 1 (fun _ => (1 : ℝ)) (fun _ _ => 1)
      ((fun i _ => ![(0 : ℝ), 2] i) 0) =
      (fun i _ => ![(-1 : ℝ), 1] i) 0 := by
  have hfit : IsPCAFit 2 1 1 1 (fun i _ => ![(0 : ℝ), 2] i)
      ⟨fun _ => 1, fun _ _ => 1, fun i _ => ![(-1 : ℝ), 1] i⟩ := by
    refine ⟨fun i _ => ![(-1 : ℝ), 1] i, fun _ => 1, fun _ _ => 1,
      le_refl 1, ?hV, ?hmean, ?hcenter, ?hcomp, ?hscore⟩
    · intro d c
      fin_cases d
      fin_cases c
      simp
    · intro j
      rw [Fin.sum_univ_two]
      norm_num
    · intro i j
      fin_cases i
      · simp
      · simp
        norm_num
    · intro c j
      rfl
    · intro i c
      simp
  exact ⟨hfit,
    pca_replay 2 1 1 1 (fun i _ => ![(0 : ℝ), 2] i) _ hfit 0⟩

/-- Claim C9: The exported preprocessing-parameters document carries the
column-wise mean/std of the SNV spectra, the target scaler's mean and
scale vectors, and (exactly when a PCA was passed) the PCA mean vector,
component matrix and component count; the model-info document carries the
post-PCA input width, the target count, both label lists, and the
VIP-selected index list. -/
theorem export_contents :
    ∀ (n p t : ℕ)
      (plsLib : (k : ℕ) → (Fin n → Fin p → ℝ) → (Fin n → Fin t → ℝ) →
        PLSFit n p t k)
      (pcaLib : (w k : ℕ) → (Fin n → Fin w → ℝ) → PCAModel n w k)
      (X : Fin n → Fin p → ℝ) (Y : Fin n → Fin t → ℝ)
      (wl pl : List String),
      let snv := apply_snv n p X
      let sel := select_features_vip n p t plsLib snv
        (scalerTransform n t Y) (topKRequested p) 10
      let w := sel.length
      let k := pcaComponentsPassed w
      let M := pcaLib w k (fun i c => snv i (sel.get c))
      let em := main_export n p t plsLib pcaLib X Y wl pl
      em.1.spectrum_stats_mean = (List.finRange p).map (colMean n p snv) ∧
      em.1.spectrum_stats_std = (List.finRange p).map (colStd n p snv) ∧
      em.1.property_scaler_mean = (List.finRange t).map (scalerMean n t Y) ∧
      em.1.property_scaler_scale =
        (List.finRange t).map (scalerScale n t Y) ∧
      em.1.pca = some (pcaToJson n w k M) ∧
      (save_preprocessing_params n p t snv Y none).pca = none ∧
      em.2.input_size = k ∧
      em.2.output_size = t ∧
      em.2.property_labels = pl ∧
      em.2.wavelength_labels = wl ∧
      em.2.selected_feature_indices = sel.map Fin.val := by
  intro n p t plsLib pcaLib X Y wl pl
  exact ⟨rfl, rfl, rfl, rfl, rfl, rfl, rfl, rfl, rfl, rfl, rfl⟩

/-- Counterexample to C3 as stated: at 50 samples and 33 wavelengths the
artifact pair records `input_size = 32` (the post-PCA width) while
`len(pca.mean) = 33` (the VIP subset width), so the two are not equal. -/
theorem input_size_ne_pca_mean_len :
    (main_export 50 33 1
      (fun _ _ _ => ⟨fun _ _ => 0, fun _ _ => 0, fun _ _ => 0⟩)
      (fun _ _ _ => ⟨fun _ => 0, fun _ _ => 0, fun _ _ => 0⟩)
      (fun _ _ => 0) (fun _ _ => 0) [] []).2.input_size = 32 ∧
    ((main_export 50 33 1
      (fun _ _ _ => ⟨fun _ _ => 0, fun _ _ => 0, fun _ _ => 0⟩)
      (fun _ _ _ => ⟨fun _ => 0, fun _ _ => 0, fun _ _ => 0⟩)
      (fun _ _ => 0) (fun _ _ => 0) [] []).1.pca.map
        fun pj => pj.mean.length) = some 33 ∧
    (32 : ℕ) ≠ 33 := by
  have hsel : (select_features_vip 50 33 1
      (fun _ _ _ => ⟨fun _ _ => 0, fun _ _ => 0, fun _ _ => 0⟩)
      (apply_snv 50 33 (fun _ _ => 0))
      (scalerTransform 50 1 (fun _ _ => 0)) (topKRequested 33) 10).length = 33 := by
    rw [select_features_vip_length]
    decide
  refine ⟨?h1, ?h2, by norm_num⟩
  · dsimp only [main_export, save_model_info, save_preprocessing_params,
      pcaToJson, Option.map]
    rw [hsel]
    rfl
  · dsimp only [main_export, save_model_info, save_preprocessing_params,
      pcaToJson, Option.map]
    rw [List.length_map, List.length_finRange, hsel]

/-- Amendment of C3 that the code satisfies: with PCA present,
`input_size` equals the exported `pca.n_components` (the post-PCA width),
while `len(pca.mean)` equals the VIP subset width, i.e. the length of
`selected_feature_indices`. -/
theorem artifact_width_invariant :
    ∀ (n p t : ℕ)
      (plsLib : (k : ℕ) → (Fin n → Fin p → ℝ) → (Fin n → Fin t → ℝ) →
        PLSFit n p t k)
      (pcaLib : (w k : ℕ) → (Fin n → Fin w → ℝ) → PCAModel n w k)
      (X : Fin n → Fin p → ℝ) (Y : Fin n → Fin t → ℝ)
      (wl pl : List String),
      ((main_export n p t plsLib pcaLib X Y wl pl).1.pca.map
        PcaJson.n_components) =
        some (main_export n p t plsLib pcaLib X Y wl pl).2.input_size ∧
      ((main_export n p t plsLib pcaLib X Y wl pl).1.pca.map
        fun pj => pj.mean.length) =
        some (main_export n p t plsLib pcaLib X Y wl
          pl).2.selected_feature_indices.length := by
  intro n p t plsLib pcaLib X Y wl pl
  constructor
  · rfl
  · show some ((List.finRange _).map _).length = some (List.map _ _).length
    rw [List.length_map, List.length_finRange, List.length_map]

/-- Claim C2, code evaluation at the failing input: With 8 samples and 33
wavelengths, `main` fits/records `n_components = 32` (it passes
`min(32, subset_width)` straight to the PCA), although
`min(requested, n_samples, subset_width) = min(32, 8, 33) = 8`; the
sample-count bound is never applied. -/
theorem pca_clamp_ignores_sample_count :
    pcaComponentsPassed 33 = 32 ∧
    ((main_export 8 33 1
      (fun _ _ _ => ⟨fun _ _ => 0, fun _ _ => 0, fun _ _ => 0⟩)
      (fun _ _ _ => ⟨fun _ => 0, fun _ _ => 0, fun _ _ => 0⟩)
      (fun _ _ => 0) (fun _ _ => 0) [] []).1.pca.map
        PcaJson.n_components) = some 32 ∧
    min 32 (min 8 33) = 8 ∧ (32 : ℕ) ≠ 8 := by
  have hsel : (select_features_vip 8 33 1
      (fun _ _ _ => ⟨fun _ _ => 0, fun _ _ => 0, fun _ _ => 0⟩)
      (apply_snv 8 33 (fun _ _ => 0))
      (scalerTransform 8 1 (fun _ _ => 0)) (topKRequested 33) 10).length = 33 := by
    rw [select_features_vip_length]
    decide
  refine ⟨rfl, ?h2, by norm_num, by norm_num⟩
  dsimp only [main_export, save_model_info, save_preprocessing_params,
    pcaToJson, Option.map]
  rw [hsel]
  rfl

end NIR
